import Mathlib

/-!
Verification development for the GenTaxAI chat service (`src/main.py`).

The `chat` endpoint handler, the session store (`CONVERSATIONS`,
`save_sessions`, startup load) and the retrieval-context formatting are
embedded shallowly: the in-memory session mapping becomes an
insertion-ordered association list (Python `dict` semantics), the two
external collaborators (the `retrieve` function and the Groq LLM client)
become oracle outcomes supplied in an environment record, and the handler
becomes a pure function from environment, store and request to an outcome
record that also tracks which collaborators were called and whether the
store was persisted.
-/

/-- Embedding of one conversation turn: a record with a `role` string and a
`content` string, as stored in `CONVERSATIONS[session_id]`. -/
structure Turn where
  role : String
  content : String
deriving DecidableEq, Repr

/-- A session transcript: the ordered list of turns of one session. -/
abbrev Transcript := List Turn

/-- Embedding of the `CONVERSATIONS` mapping: an insertion-ordered
association list from session id to transcript (Python `dict`: updating an
existing key keeps its position, a new key is appended at the end). -/
abbrev Store := List (String × Transcript)

/-- Dict lookup: `CONVERSATIONS.get(k)`. -/
def storeGet (s : Store) (k : String) : Option Transcript :=
  match s with
  | [] => none
  | (k', v) :: rest => if k' = k then some v else storeGet rest k

/-- Dict assignment `CONVERSATIONS[k] = v`: update in place if the key is
present, otherwise append the new key at the end. -/
def storeSet (s : Store) (k : String) (v : Transcript) : Store :=
  match s with
  | [] => [(k, v)]
  | (k', v') :: rest => if k' = k then (k', v) :: rest else (k', v') :: storeSet rest k v

/-- Embedding of `CONVERSATIONS[k].append(t)` (the key is always present
when the code does this; the `getD []` default is never hit there). -/
def appendTurn (s : Store) (k : String) (t : Turn) : Store :=
  storeSet s k ((storeGet s k).getD [] ++ [t])

/-- Embedding of Python `str.strip()`: drop leading and trailing
whitespace characters. -/
def pyStrip (s : String) : String :=
  ⟨((s.data.dropWhile Char.isWhitespace).reverse.dropWhile Char.isWhitespace).reverse⟩

/-- The fixed `SYSTEM_PROMPT` string of `src/main.py`, verbatim. -/
def SYSTEM_PROMPT : String :=
  "You are GenTaxAI, a precise and helpful Indian tax assistant.\n" ++
  "You specialize in Indian taxation including Income Tax, GST, MSME, RBI, SEBI and related compliance.\n" ++
  "Use the provided CONTEXT snippets as the primary source of truth. If a user asks " ++
  "for something covered in context, quote or paraphrase that accurately. If the answer " ++
  "is not in context, answer from your knowledge carefully and clearly say when you are not certain.\n" ++
  "Always prefer official wording in the snippets when giving definitions or rules.\n" ++
  "Keep responses concise but comprehensive."

/-- The seed turn `dict(role = system, content = SYSTEM_PROMPT)` installed on
first use of a session id. -/
def sysTurn : Turn := { role := "system", content := SYSTEM_PROMPT }

/-- Embedding of lines 87-88 of `src/main.py`: if the session id is not in
`CONVERSATIONS`, install the singleton transcript holding the system turn. -/
def seedSession (s : Store) (k : String) : Store :=
  match storeGet s k with
  | some _ => s
  | none => storeSet s k [sysTurn]

/-- A retrieved snippet as the code sees it: a dict whose fields
`source`, `chunk_id` and `text` may each be absent (`hit.get` with a
default is used for every access). -/
structure Snippet where
  source : Option String
  chunk_id : Option String
  text : Option String
deriving DecidableEq, Repr

/-- A citation entry of the response payload. -/
structure Citation where
  id : String
  source : String
  chunk_id : String
deriving DecidableEq, Repr

/-- The `top_k` field of the request: absent, an integer, or a value on
which `int()` raises. -/
inductive TopKInput where
  | noneGiven
  | num (i : Int)
  | nonNumeric
deriving DecidableEq, Repr

/-- Embedding of lines 91-94 of `src/main.py`:
`try: top_k = max(1, min(10, int(query.top_k or 5))) except: top_k = 5`.
An absent value and the integer 0 are both falsy in `query.top_k or 5`, so
both take the default 5 before clamping; a nonzero integer is clamped into
[1,10]; a value on which `int()` raises lands in the `except` arm with 5. -/
def effectiveTopK : TopKInput → Int
  | TopKInput.noneGiven => max 1 (min 10 5)
  | TopKInput.num i => if i = 0 then max 1 (min 10 5) else max 1 (min 10 i)
  | TopKInput.nonNumeric => 5

/-- Embedding of the `ChatQuery` request model. -/
structure ChatQuery where
  question : String
  session_id : Option String
  top_k : TopKInput
deriving DecidableEq, Repr

/-- Outcome of the single `retrieve(question, k=top_k)` call: a list of
snippets, or any raised exception. A falsy result (`None` or `[]`) is the
empty list. -/
inductive RetrieveOutcome where
  | ok (hits : List Snippet)
  | err
deriving DecidableEq, Repr

/-- Outcome of the single Groq chat-completion call: the answer text, or a
raised exception carrying its message `str(e)`. -/
inductive LLMOutcome where
  | ok (answer : String)
  | err (msg : String)
deriving DecidableEq, Repr

/-- The environment of one request: the fresh uuid that `str(uuid.uuid4())`
would produce, and the outcomes of the two external calls. -/
structure Env where
  freshId : String
  retrieve : RetrieveOutcome
  llm : LLMOutcome
deriving DecidableEq, Repr

/-- Embedding of line 86: `session_id = query.session_id or str(uuid.uuid4())`;
`None` and the empty string are both falsy. -/
def resolveSid : Option String → String → String
  | some s, fresh => if s = "" then fresh else s
  | none, fresh => fresh

/-- Embedding of `kb_hits = retrieve(...) or []` with the fail-open
`except` arm of lines 96-100: a raised error gives the empty list. -/
def hitsOf : RetrieveOutcome → List Snippet
  | RetrieveOutcome.ok hits => hits
  | RetrieveOutcome.err => []

/-- The `source` of a snippet: `str(hit.get("source", "knowledge_base"))`. -/
def snippetSource (hit : Snippet) : String := hit.source.getD "knowledge_base"

/-- The `chunk_id` of the snippet at 1-based rank `i`:
`str(hit.get("chunk_id", i))`. -/
def snippetChunkId (hit : Snippet) (i : Nat) : String :=
  hit.chunk_id.getD (toString i)

/-- The `text` of a snippet: `str(hit.get("text", "")).strip()`. -/
def snippetText (hit : Snippet) : String := pyStrip (hit.text.getD "")

/-- One entry of `context_texts`: the tag line followed by the snippet
text, for the snippet at 1-based rank `i`. -/
def contextEntry (i : Nat) (hit : Snippet) : String :=
  "[" ++ toString i ++ "] " ++ snippetSource hit ++ "#chunk" ++ snippetChunkId hit i
    ++ "\n" ++ snippetText hit

/-- One entry of `citations_payload` for the snippet at 1-based rank `i`. -/
def citationOf (i : Nat) (hit : Snippet) : Citation :=
  { id := toString i, source := snippetSource hit, chunk_id := snippetChunkId hit i }

/-- The `citations_payload` list built by the enumerate loop. -/
def citationsOf (hits : List Snippet) : List Citation :=
  (List.enumFrom 1 hits).map (fun p => citationOf p.1 p.2)

/-- The `context_block` string: the `CONTEXT:` header followed by the
entries joined with a blank line. -/
def contextBlock (hits : List Snippet) : String :=
  "CONTEXT:\n" ++ String.intercalate "\n\n"
    ((List.enumFrom 1 hits).map (fun p => contextEntry p.1 p.2))

/-- The observable outcome of one `chat` call: HTTP status and payload
fields, the effective `top_k` handed to the retriever, whether each
external collaborator was called, whether `save_sessions` ran, and the
in-memory mapping and the on-disk mapping after the call. -/
structure ChatOutcome where
  status : Nat
  detail : Option String
  answer : Option String
  session_id : Option String
  citations : List Citation
  topKUsed : Option Int
  retrieverCalled : Bool
  llmCalled : Bool
  persisted : Bool
  mem : Store
  disk : Store
deriving DecidableEq, Repr

/-- Embedding of the `chat` handler of `src/main.py` (lines 80-137), with
`mem` the in-memory `CONVERSATIONS` and `disk` the persisted file content
before the call. -/
def chat (env : Env) (mem disk : Store) (query : ChatQuery) : ChatOutcome :=
  let question := pyStrip query.question
  if question = "" then
    { status := 400, detail := some "Empty question", answer := none,
      session_id := none, citations := [], topKUsed := none,
      retrieverCalled := false, llmCalled := false, persisted := false,
      mem := mem, disk := disk }
  else
    let session_id := resolveSid query.session_id env.freshId
    let mem1 := seedSession mem session_id
    let top_k := effectiveTopK query.top_k
    let kb_hits := hitsOf env.retrieve
    let citations_payload := if kb_hits.isEmpty then [] else citationsOf kb_hits
    let mem2 :=
      if kb_hits.isEmpty then mem1
      else appendTurn mem1 session_id { role := "assistant", content := contextBlock kb_hits }
    let mem3 := appendTurn mem2 session_id { role := "user", content := question }
    match env.llm with
    | LLMOutcome.err msg =>
      { status := 500, detail := some ("LLM error: " ++ msg), answer := none,
        session_id := none, citations := [], topKUsed := some top_k,
        retrieverCalled := true, llmCalled := true, persisted := false,
        mem := mem3, disk := disk }
    | LLMOutcome.ok answer =>
      let mem4 := appendTurn mem3 session_id { role := "assistant", content := answer }
      { status := 200, detail := none, answer := some answer,
        session_id := some session_id, citations := citations_payload,
        topKUsed := some top_k, retrieverCalled := true, llmCalled := true,
        persisted := true, mem := mem4, disk := mem4 }

/-- Turns the context-injection step appends: one synthetic assistant turn
when retrieval produced at least one snippet, nothing otherwise. -/
def ctxTurns (hits : List Snippet) : List Turn :=
  if hits.isEmpty then [] else [{ role := "assistant", content := contextBlock hits }]

/-- Turns the LLM step appends: the assistant reply on success, nothing
when the call raised. -/
def ansTurns : LLMOutcome → List Turn
  | LLMOutcome.ok answer => [{ role := "assistant", content := answer }]
  | LLMOutcome.err _ => []

/-- Transcript shape maintained by the code: the head is the fixed system
seed turn and no later turn carries the `system` role (user turns carry
`user`, context and reply turns carry `assistant`), so the transcript
holds exactly one system turn, at the front. -/
def goodTranscript (ts : Transcript) : Prop :=
  ∃ rest, ts = sysTurn :: rest ∧ ∀ t ∈ rest, t.role ≠ "system"

/-- Store-wide invariant: every session present in the mapping has a
transcript of the shape `goodTranscript` describes. -/
def GoodStore (s : Store) : Prop :=
  ∀ sid ts, storeGet s sid = some ts → goodTranscript ts

/-- In-memory states reachable by the service: the empty mapping of a
fresh start, closed under arbitrary `chat` calls. -/
inductive Reachable : Store → Prop where
  | init : Reachable []
  | step (env : Env) (disk : Store) (q : ChatQuery) {mem : Store} :
      Reachable mem → Reachable (chat env mem disk q).mem

/-- One request of a trace: its environment and its body. -/
structure Op where
  env : Env
  query : ChatQuery
deriving DecidableEq, Repr

/-- Runs a sequence of `chat` requests, threading the in-memory store and
the on-disk store through. -/
def runChat : List Op → Store × Store → Store × Store
  | [], st => st
  | op :: ops, st => runChat ops ((chat op.env st.1 st.2 op.query).mem, (chat op.env st.1 st.2 op.query).disk)

/-- The JSON documents `json.dump` writes and `json.load` reads. -/
inductive Json where
  | str (s : String)
  | num (n : Int)
  | bool (b : Bool)
  | null
  | arr (xs : List Json)
  | obj (kvs : List (String × Json))

/-- Serialization of one turn, as `json.dump` renders the dict
(insertion order `role` then `content`). -/
def turnToJson (t : Turn) : Json :=
  Json.obj [("role", Json.str t.role), ("content", Json.str t.content)]

/-- Serialization of the whole `CONVERSATIONS` mapping: a JSON object of
arrays of turn objects, in insertion order. This is the document
`save_sessions` writes. -/
def storeToJson (s : Store) : Json :=
  Json.obj (s.map (fun p => (p.1, Json.arr (p.2.map turnToJson))))

/-- Reading one turn back at startup: a JSON object with the `role` and
`content` string fields, anything else is a parse failure. -/
def jsonToTurn : Json → Option Turn
  | Json.obj [("role", Json.str r), ("content", Json.str c)] => some { role := r, content := c }
  | _ => none

/-- Reads a list of turn documents back, failing if any element fails. -/
def decodeTurns : List Json → Option (List Turn)
  | [] => some []
  | j :: js =>
    match jsonToTurn j, decodeTurns js with
    | some t, some ts => some (t :: ts)
    | _, _ => none

/-- Reads the entries of the top-level JSON object back. -/
def decodeSessions : List (String × Json) → Option Store
  | [] => some []
  | (k, Json.arr xs) :: rest =>
    match decodeTurns xs, decodeSessions rest with
    | some ts, some s => some ((k, ts) :: s)
    | _, _ => none
  | _ => none

/-- The startup load of `SESSIONS_FILE`: the parsed document must be an
object mapping session ids to arrays of turn objects. -/
def jsonToStore : Json → Option Store
  | Json.obj kvs => decodeSessions kvs
  | _ => none

/-- Concrete environment: retrieval finds nothing, the LLM answers. -/
def envOkNoHits : Env :=
  { freshId := "fresh-uuid", retrieve := RetrieveOutcome.ok [], llm := LLMOutcome.ok "the answer" }

/-- Concrete environment: the retriever raises, the LLM answers. -/
def envErrRetr : Env :=
  { freshId := "fresh-uuid", retrieve := RetrieveOutcome.err, llm := LLMOutcome.ok "the answer" }

/-- Concrete environment: retrieval finds nothing, the LLM raises. -/
def envErrLLM : Env :=
  { freshId := "fresh-uuid", retrieve := RetrieveOutcome.ok [], llm := LLMOutcome.err "boom" }

/-- Concrete environment: one snippet with only a text field, LLM answers. -/
def envHits : Env :=
  { freshId := "fresh-uuid",
    retrieve := RetrieveOutcome.ok [{ source := none, chunk_id := none, text := some " t1 " }],
    llm := LLMOutcome.ok "the answer" }

/-- Concrete request whose question is whitespace only. -/
def qEmptyQ : ChatQuery :=
  { question := "   ", session_id := none, top_k := TopKInput.noneGiven }

/-- Concrete request with no session id. -/
def qBasic : ChatQuery :=
  { question := " What is the GST rate? ", session_id := none, top_k := TopKInput.noneGiven }

/-- Concrete follow-up request on session `s` with `top_k` 7. -/
def qSessS : ChatQuery :=
  { question := "follow up", session_id := some "s", top_k := TopKInput.num 7 }

/-- Concrete request carrying the empty string as session id. -/
def qEmptySid : ChatQuery :=
  { question := "hello", session_id := some "", top_k := TopKInput.noneGiven }

/-- Concrete store holding one freshly seeded session `s`. -/
def memS : Store := [("s", [sysTurn])]

theorem storeGet_storeSet_self (s : Store) (k : String) (v : Transcript) :
    storeGet (storeSet s k v) k = some v := by
  induction s with
  | nil => simp [storeSet, storeGet]
  | cons p rest ih =>
    obtain ⟨k', v'⟩ := p
    by_cases h : k' = k
    · simp [storeSet, storeGet, h]
    · simp [storeSet, storeGet, h, ih]

theorem storeGet_storeSet_ne (s : Store) (k k' : String) (v : Transcript)
    (h : k' ≠ k) : storeGet (storeSet s k v) k' = storeGet s k' := by
  have h' : k ≠ k' := fun hh => h hh.symm
  induction s with
  | nil => simp [storeSet, storeGet, h']
  | cons p rest ih =>
    obtain ⟨k₀, v₀⟩ := p
    by_cases hk : k₀ = k
    · subst hk
      simp [storeSet, storeGet, h']
    · simp [storeSet, storeGet, hk, ih]

theorem storeGet_seedSession_self (s : Store) (k : String) :
    storeGet (seedSession s k) k = some ((storeGet s k).getD [sysTurn]) := by
  unfold seedSession
  cases h : storeGet s k with
  | some ts => simp [h]
  | none => simp [storeGet_storeSet_self]

theorem storeGet_seedSession_ne (s : Store) (k k' : String) (h : k' ≠ k) :
    storeGet (seedSession s k) k' = storeGet s k' := by
  unfold seedSession
  cases hk : storeGet s k with
  | some ts => rfl
  | none => simp [storeGet_storeSet_ne _ _ _ _ h]

theorem storeGet_appendTurn_self (s : Store) (k : String) (t : Turn) :
    storeGet (appendTurn s k t) k = some ((storeGet s k).getD [] ++ [t]) := by
  unfold appendTurn
  exact storeGet_storeSet_self _ _ _

theorem storeGet_appendTurn_ne (s : Store) (k k' : String) (t : Turn)
    (h : k' ≠ k) : storeGet (appendTurn s k t) k' = storeGet s k' := by
  unfold appendTurn
  exact storeGet_storeSet_ne _ _ _ _ h

/-- Central characterization of a non-rejected `chat` call: the resolved
session's transcript after the call is the seeded prior transcript, then
the optional context turn, then the user turn, then the assistant turn
when the LLM call succeeded. -/
theorem chat_mem_self (env : Env) (mem disk : Store) (q : ChatQuery)
    (hq : pyStrip q.question ≠ "") :
    storeGet (chat env mem disk q).mem (resolveSid q.session_id env.freshId) =
      some ((storeGet mem (resolveSid q.session_id env.freshId)).getD [sysTurn]
        ++ ctxTurns (hitsOf env.retrieve)
        ++ [{ role := "user", content := pyStrip q.question }]
        ++ ansTurns env.llm) := by
  obtain ⟨fresh, retr, llm⟩ := env
  unfold chat
  rw [if_neg hq]
  cases llm with
  | ok answer =>
    by_cases hh : (hitsOf retr).isEmpty
    · simp [hh, ctxTurns, ansTurns, storeGet_appendTurn_self,
        storeGet_seedSession_self]
    · simp [hh, ctxTurns, ansTurns, storeGet_appendTurn_self,
        storeGet_seedSession_self]
  | err msg =>
    by_cases hh : (hitsOf retr).isEmpty
    · simp [hh, ctxTurns, ansTurns, storeGet_appendTurn_self,
        storeGet_seedSession_self]
    · simp [hh, ctxTurns, ansTurns, storeGet_appendTurn_self,
        storeGet_seedSession_self]

/-- A `chat` call touches no session other than the resolved one. -/
theorem chat_mem_ne (env : Env) (mem disk : Store) (q : ChatQuery)
    (k : String) (hk : k ≠ resolveSid q.session_id env.freshId) :
    storeGet (chat env mem disk q).mem k = storeGet mem k := by
  obtain ⟨fresh, retr, llm⟩ := env
  unfold chat
  by_cases hq : pyStrip q.question = ""
  · rw [if_pos hq]
  · rw [if_neg hq]
    cases llm with
    | ok answer =>
      by_cases hh : (hitsOf retr).isEmpty
      · simp [hh, storeGet_appendTurn_ne _ _ _ _ hk, storeGet_seedSession_ne _ _ _ hk]
      · simp [hh, storeGet_appendTurn_ne _ _ _ _ hk, storeGet_seedSession_ne _ _ _ hk]
    | err msg =>
      by_cases hh : (hitsOf retr).isEmpty
      · simp [hh, storeGet_appendTurn_ne _ _ _ _ hk, storeGet_seedSession_ne _ _ _ hk]
      · simp [hh, storeGet_appendTurn_ne _ _ _ _ hk, storeGet_seedSession_ne _ _ _ hk]

theorem goodTranscript_append_list (ts : Transcript) (l : List Turn)
    (h : goodTranscript ts) (hl : ∀ t ∈ l, t.role ≠ "system") :
    goodTranscript (ts ++ l) := by
  obtain ⟨rest, hts, hrest⟩ := h
  refine ⟨rest ++ l, by simp [hts], ?_⟩
  intro u hu
  rcases List.mem_append.mp hu with h1 | h2
  · exact hrest u h1
  · exact hl u h2

theorem goodTranscript_seed : goodTranscript [sysTurn] := by
  exact ⟨[], rfl, by intro t ht; simp at ht⟩

theorem ctxTurns_roles (hits : List Snippet) :
    ∀ t ∈ ctxTurns hits, t.role ≠ "system" := by
  intro t ht
  unfold ctxTurns at ht
  by_cases hh : hits.isEmpty
  · simp [hh] at ht
  · simp [hh] at ht
    subst ht
    simp

theorem ansTurns_roles (o : LLMOutcome) :
    ∀ t ∈ ansTurns o, t.role ≠ "system" := by
  intro t ht
  cases o with
  | ok a => simp [ansTurns] at ht; subst ht; simp
  | err m => simp [ansTurns] at ht

theorem chat_GoodStore (env : Env) (mem disk : Store) (q : ChatQuery)
    (hs : GoodStore mem) : GoodStore (chat env mem disk q).mem := by
  intro sid ts hget
  by_cases hq : pyStrip q.question = ""
  · unfold chat at hget
    rw [if_pos hq] at hget
    exact hs sid ts hget
  · by_cases hk : sid = resolveSid q.session_id env.freshId
    · subst hk
      rw [chat_mem_self env mem disk q hq] at hget
      cases hget
      have hbase : goodTranscript ((storeGet mem (resolveSid q.session_id env.freshId)).getD [sysTurn]) := by
        cases hb : storeGet mem (resolveSid q.session_id env.freshId) with
        | some ts0 => simpa using hs _ ts0 hb
        | none => simpa using goodTranscript_seed
      refine goodTranscript_append_list _ _ (goodTranscript_append_list _ _
        (goodTranscript_append_list _ _ hbase (ctxTurns_roles _)) ?_) (ansTurns_roles _)
      intro t ht
      simp at ht
      subst ht
      simp
    · rw [chat_mem_ne env mem disk q sid hk] at hget
      exact hs sid ts hget

/-- C3: in every reachable state of the session mapping, every session
present has a transcript that begins with exactly one system-role turn
carrying the fixed `SYSTEM_PROMPT` — it is installed when the session id
is first used and no later operation adds, removes or changes a system
turn. -/
theorem reachable_sessions_start_with_system (s : Store) (hs : Reachable s) :
    GoodStore s := by
  induction hs with
  | init => intro sid ts h; simp [storeGet] at h
  | step env disk q hmem ih => exact chat_GoodStore _ _ _ _ ih

/-- Witness for C3: the state after one concrete chat call on the empty
store is reachable and satisfies the invariant. -/
theorem reachable_sessions_start_with_system_witness :
    GoodStore ((chat envHits [] [] qBasic).mem) :=
  reachable_sessions_start_with_system _ (Reachable.step envHits [] qBasic Reachable.init)

theorem chat_extends (env : Env) (mem disk : Store) (q : ChatQuery)
    (sid : String) (ts : Transcript) (h : storeGet mem sid = some ts) :
    ts <+: ((storeGet (chat env mem disk q).mem sid).getD []) ∧
    storeGet (chat env mem disk q).mem sid ≠ none := by
  by_cases hq : pyStrip q.question = ""
  · have hmem : (chat env mem disk q).mem = mem := by
      unfold chat
      rw [if_pos hq]
    rw [hmem, h]
    exact ⟨by simp, by simp⟩
  · by_cases hk : sid = resolveSid q.session_id env.freshId
    · have hmem := chat_mem_self env mem disk q hq
      rw [← hk] at hmem
      rw [hmem, h]
      refine ⟨?_, by simp⟩
      simp only [Option.getD_some, List.append_assoc]
      exact List.prefix_append _ _
    · rw [chat_mem_ne env mem disk q sid hk, h]
      exact ⟨by simp, by simp⟩

/-- C8: across any sequence of chat operations, a transcript only ever
grows at the end: every turn already present keeps its position, role and
content, and the session is never removed. -/
theorem transcripts_append_only (ops : List Op) (mem disk : Store)
    (sid : String) (ts : Transcript) (h : storeGet mem sid = some ts) :
    ts <+: ((storeGet (runChat ops (mem, disk)).1 sid).getD []) ∧
    storeGet (runChat ops (mem, disk)).1 sid ≠ none := by
  induction ops generalizing mem disk ts with
  | nil =>
    simp only [runChat]
    rw [h]
    exact ⟨by simp, by simp⟩
  | cons op ops ih =>
    obtain ⟨h1, h2⟩ := chat_extends op.env mem disk op.query sid ts h
    cases hg : storeGet (chat op.env mem disk op.query).mem sid with
    | none => exact absurd hg h2
    | some ts' =>
      rw [hg] at h1
      simp only [Option.getD_some] at h1
      have hrec := ih (chat op.env mem disk op.query).mem (chat op.env mem disk op.query).disk ts' hg
      simp only [runChat]
      exact ⟨h1.trans hrec.1, hrec.2⟩

/-- Witness for C8: a seeded one-session store keeps its seed turn as a
prefix after a concrete follow-up call. -/
theorem transcripts_append_only_witness :
    [sysTurn] <+: ((storeGet (runChat [{ env := envOkNoHits, query := qSessS }] (memS, [])).1 "s").getD []) ∧
    storeGet (runChat [{ env := envOkNoHits, query := qSessS }] (memS, [])).1 "s" ≠ none :=
  transcripts_append_only [{ env := envOkNoHits, query := qSessS }] memS [] "s" [sysTurn] rfl

/-- C1: a chat request whose question is empty or whitespace-only after
stripping fails with a 400 carrying the message Empty question, calls
neither the retriever nor the LLM, persists nothing, and leaves both the
in-memory and the on-disk session mappings unchanged. -/
theorem chat_empty_question_rejected (env : Env) (mem disk : Store) (q : ChatQuery)
    (hq : pyStrip q.question = "") :
    (chat env mem disk q).status = 400 ∧
    (chat env mem disk q).detail = some "Empty question" ∧
    (chat env mem disk q).retrieverCalled = false ∧
    (chat env mem disk q).llmCalled = false ∧
    (chat env mem disk q).persisted = false ∧
    (chat env mem disk q).mem = mem ∧
    (chat env mem disk q).disk = disk := by
  have hc : chat env mem disk q =
      { status := 400, detail := some "Empty question", answer := none,
        session_id := none, citations := [], topKUsed := none,
        retrieverCalled := false, llmCalled := false, persisted := false,
        mem := mem, disk := disk } := by
    unfold chat
    rw [if_pos hq]
  rw [hc]
  exact ⟨rfl, rfl, rfl, rfl, rfl, rfl, rfl⟩

/-- Witness for C1 at a concrete whitespace-only request. -/
theorem chat_empty_question_rejected_witness :
    (chat envOkNoHits [] [] qEmptyQ).status = 400 ∧
    (chat envOkNoHits [] [] qEmptyQ).detail = some "Empty question" ∧
    (chat envOkNoHits [] [] qEmptyQ).retrieverCalled = false ∧
    (chat envOkNoHits [] [] qEmptyQ).llmCalled = false ∧
    (chat envOkNoHits [] [] qEmptyQ).persisted = false ∧
    (chat envOkNoHits [] [] qEmptyQ).mem = [] ∧
    (chat envOkNoHits [] [] qEmptyQ).disk = [] :=
  chat_empty_question_rejected envOkNoHits [] [] qEmptyQ (by decide)

/-- C2: when the LLM call raises on a non-empty question, the call
surfaces a 500 whose detail is exactly the upstream text prefixed with
LLM error, the user turn and any context turn stay appended in memory, no
assistant reply is appended, and nothing is persisted to disk. -/
theorem chat_llm_failure_surfaced (env : Env) (mem disk : Store) (q : ChatQuery)
    (msg : String) (hq : pyStrip q.question ≠ "") (hllm : env.llm = LLMOutcome.err msg) :
    (chat env mem disk q).status = 500 ∧
    (chat env mem disk q).detail = some ("LLM error: " ++ msg) ∧
    storeGet (chat env mem disk q).mem (resolveSid q.session_id env.freshId) =
      some ((storeGet mem (resolveSid q.session_id env.freshId)).getD [sysTurn]
        ++ ctxTurns (hitsOf env.retrieve)
        ++ [{ role := "user", content := pyStrip q.question }]) ∧
    (chat env mem disk q).persisted = false ∧
    (chat env mem disk q).disk = disk := by
  have hmem := chat_mem_self env mem disk q hq
  rw [hllm] at hmem
  simp only [ansTurns, List.append_nil] at hmem
  obtain ⟨fresh, retr, llm⟩ := env
  have hllm' : llm = LLMOutcome.err msg := hllm
  subst hllm'
  refine ⟨?_, ?_, hmem, ?_, ?_⟩
  · unfold chat
    rw [if_neg hq]
  · unfold chat
    rw [if_neg hq]
  · unfold chat
    rw [if_neg hq]
  · unfold chat
    rw [if_neg hq]

/-- Witness for C2 at a concrete failing LLM call. -/
theorem chat_llm_failure_surfaced_witness :
    (chat envErrLLM [] [] qBasic).status = 500 ∧
    (chat envErrLLM [] [] qBasic).detail = some ("LLM error: " ++ "boom") ∧
    storeGet (chat envErrLLM [] [] qBasic).mem (resolveSid qBasic.session_id envErrLLM.freshId) =
      some ((storeGet ([] : Store) (resolveSid qBasic.session_id envErrLLM.freshId)).getD [sysTurn]
        ++ ctxTurns (hitsOf envErrLLM.retrieve)
        ++ [{ role := "user", content := pyStrip qBasic.question }]) ∧
    (chat envErrLLM [] [] qBasic).persisted = false ∧
    (chat envErrLLM [] [] qBasic).disk = [] :=
  chat_llm_failure_surfaced envErrLLM [] [] qBasic "boom" (by decide) rfl

/-- C4: a successful chat call on an existing session grows that session's
transcript by exactly 2 turns when retrieval found nothing and by exactly
3 turns when it found snippets, and every other session is untouched. -/
theorem chat_success_transcript_growth (env : Env) (mem disk : Store) (q : ChatQuery)
    (sid other ans : String) (ts : Transcript)
    (hsid : q.session_id = some sid) (hne : sid ≠ "")
    (hmem : storeGet mem sid = some ts)
    (hq : pyStrip q.question ≠ "") (hllm : env.llm = LLMOutcome.ok ans)
    (hother : other ≠ sid) :
    List.length ((storeGet (chat env mem disk q).mem sid).getD []) =
      ts.length + (if (hitsOf env.retrieve).isEmpty then 2 else 3) ∧
    storeGet (chat env mem disk q).mem other = storeGet mem other := by
  have hres : resolveSid q.session_id env.freshId = sid := by
    rw [hsid]
    simp [resolveSid, hne]
  constructor
  · have h1 := chat_mem_self env mem disk q hq
    rw [hres, hmem, hllm] at h1
    rw [h1]
    by_cases hh : (hitsOf env.retrieve).isEmpty
    · simp [hh, ctxTurns, ansTurns]
    · simp [hh, ctxTurns, ansTurns]
  · refine chat_mem_ne env mem disk q other ?_
    rw [hres]
    exact hother

/-- Witness for C4: a concrete follow-up call on the seeded session `s`
grows its transcript from 1 turn to 3 and leaves session `t` alone. -/
theorem chat_success_transcript_growth_witness :
    List.length ((storeGet (chat envOkNoHits memS [] qSessS).mem "s").getD []) =
      List.length [sysTurn] + (if (hitsOf envOkNoHits.retrieve).isEmpty then 2 else 3) ∧
    storeGet (chat envOkNoHits memS [] qSessS).mem "t" = storeGet memS "t" :=
  chat_success_transcript_growth envOkNoHits memS [] qSessS "s" "t" "the answer" [sysTurn]
    rfl (by decide) rfl (by decide) rfl (by decide)

/-- C5: a raised retriever on a non-empty question never aborts the call;
with a successful LLM call it still returns 200 with an empty citation
list and no context turn is appended. -/
theorem chat_retriever_failure_fail_open (env : Env) (mem disk : Store) (q : ChatQuery)
    (ans : String) (hq : pyStrip q.question ≠ "")
    (hret : env.retrieve = RetrieveOutcome.err) (hllm : env.llm = LLMOutcome.ok ans) :
    (chat env mem disk q).status = 200 ∧
    (chat env mem disk q).citations = [] ∧
    (chat env mem disk q).answer = some ans ∧
    storeGet (chat env mem disk q).mem (resolveSid q.session_id env.freshId) =
      some ((storeGet mem (resolveSid q.session_id env.freshId)).getD [sysTurn]
        ++ [{ role := "user", content := pyStrip q.question },
            { role := "assistant", content := ans }]) := by
  have hmem := chat_mem_self env mem disk q hq
  rw [hret, hllm] at hmem
  simp only [hitsOf, ctxTurns, List.isEmpty_nil, if_true, ansTurns, List.append_nil] at hmem
  obtain ⟨fresh, retr, llm⟩ := env
  have hret' : retr = RetrieveOutcome.err := hret
  have hllm' : llm = LLMOutcome.ok ans := hllm
  subst hret'
  subst hllm'
  refine ⟨?_, ?_, ?_, ?_⟩
  · unfold chat
    rw [if_neg hq]
  · unfold chat
    rw [if_neg hq]
    rfl
  · unfold chat
    rw [if_neg hq]
  · rw [hmem]
    simp

/-- Witness for C5 at a concrete raising retriever. -/
theorem chat_retriever_failure_fail_open_witness :
    (chat envErrRetr [] [] qBasic).status = 200 ∧
    (chat envErrRetr [] [] qBasic).citations = [] ∧
    (chat envErrRetr [] [] qBasic).answer = some "the answer" ∧
    storeGet (chat envErrRetr [] [] qBasic).mem (resolveSid qBasic.session_id envErrRetr.freshId) =
      some ((storeGet ([] : Store) (resolveSid qBasic.session_id envErrRetr.freshId)).getD [sysTurn]
        ++ [{ role := "user", content := pyStrip qBasic.question },
            { role := "assistant", content := "the answer" }]) :=
  chat_retriever_failure_fail_open envErrRetr [] [] qBasic "the answer" (by decide) rfl rfl

/-- C6 counterexample: the claim says a supplied `top_k` of 0 is clamped
to 1, but `query.top_k or 5` treats 0 as falsy, so the code hands the
retriever the default 5 instead. -/
theorem chat_topk_zero_counterexample :
    (chat envOkNoHits [] [] { question := "q", session_id := none, top_k := TopKInput.num 0 }).topKUsed
      = some 5 ∧
    (chat envOkNoHits [] [] { question := "q", session_id := none, top_k := TopKInput.num 0 }).topKUsed
      ≠ some 1 := by
  constructor
  · rfl
  · decide

/-- C6 amended: the effective `top_k` handed to the retriever is the
request's value clamped into [1,10] for every supplied nonzero integer;
an absent value, the integer 0 (falsy, so it takes the `or 5` default
before any clamping) and a non-numeric value all yield the default 5. -/
theorem chat_topk_amended (env : Env) (mem disk : Store) (q : ChatQuery) (i : Int)
    (hq : pyStrip q.question ≠ "") (hk : q.top_k = TopKInput.num i) (hi : i ≠ 0) :
    (chat env mem disk q).topKUsed = some (max 1 (min 10 i)) ∧
    effectiveTopK TopKInput.noneGiven = 5 ∧
    effectiveTopK (TopKInput.num 0) = 5 ∧
    effectiveTopK TopKInput.nonNumeric = 5 := by
  refine ⟨?_, rfl, rfl, rfl⟩
  obtain ⟨fresh, retr, llm⟩ := env
  cases llm with
  | ok answer =>
    unfold chat
    rw [if_neg hq]
    simp only [effectiveTopK, hk, if_neg hi]
  | err msg =>
    unfold chat
    rw [if_neg hq]
    simp only [effectiveTopK, hk, if_neg hi]

/-- Witness for C6 amended at a concrete supplied value of 7. -/
theorem chat_topk_amended_witness :
    (chat envOkNoHits memS [] qSessS).topKUsed = some (max 1 (min 10 7)) ∧
    effectiveTopK TopKInput.noneGiven = 5 ∧
    effectiveTopK (TopKInput.num 0) = 5 ∧
    effectiveTopK TopKInput.nonNumeric = 5 :=
  chat_topk_amended envOkNoHits memS [] qSessS 7 (by decide) rfl (by decide)

theorem chat_citations_ok (env : Env) (mem disk : Store) (q : ChatQuery) (ans : String)
    (hq : pyStrip q.question ≠ "") (hllm : env.llm = LLMOutcome.ok ans) :
    (chat env mem disk q).citations =
      if (hitsOf env.retrieve).isEmpty then [] else citationsOf (hitsOf env.retrieve) := by
  obtain ⟨fresh, retr, llm⟩ := env
  have hllm' : llm = LLMOutcome.ok ans := hllm
  subst hllm'
  unfold chat
  rw [if_neg hq]

/-- C7: a non-empty retrieval result of n snippets yields exactly one
synthetic assistant context turn whose content is the CONTEXT header
followed by the rendered snippets joined with a blank line, with missing
fields defaulted, and a parallel citation list of n entries whose i-th
entry carries the 1-based rank as id together with that snippet's source
and chunk id. -/
theorem chat_context_formatting (env : Env) (mem disk : Store) (q : ChatQuery)
    (hits : List Snippet) (ans : String)
    (hq : pyStrip q.question ≠ "") (hret : env.retrieve = RetrieveOutcome.ok hits)
    (hhits : hits ≠ []) (hllm : env.llm = LLMOutcome.ok ans) :
    (chat env mem disk q).citations =
      (List.enumFrom 1 hits).map (fun p =>
        ({ id := toString p.1,
           source := p.2.source.getD "knowledge_base",
           chunk_id := p.2.chunk_id.getD (toString p.1) } : Citation)) ∧
    (chat env mem disk q).citations.length = hits.length ∧
    storeGet (chat env mem disk q).mem (resolveSid q.session_id env.freshId) =
      some ((storeGet mem (resolveSid q.session_id env.freshId)).getD [sysTurn]
        ++ [{ role := "assistant",
              content := "CONTEXT:\n" ++ String.intercalate "\n\n"
                ((List.enumFrom 1 hits).map (fun p =>
                  "[" ++ toString p.1 ++ "] " ++ p.2.source.getD "knowledge_base"
                    ++ "#chunk" ++ p.2.chunk_id.getD (toString p.1)
                    ++ "\n" ++ pyStrip (p.2.text.getD ""))) },
            { role := "user", content := pyStrip q.question },
            { role := "assistant", content := ans }]) := by
  have hisem : hits.isEmpty = false := by
    cases hits with
    | nil => exact absurd rfl hhits
    | cons a l => rfl
  have hcit : (chat env mem disk q).citations =
      (List.enumFrom 1 hits).map (fun p =>
        ({ id := toString p.1,
           source := p.2.source.getD "knowledge_base",
           chunk_id := p.2.chunk_id.getD (toString p.1) } : Citation)) := by
    rw [chat_citations_ok env mem disk q ans hq hllm, hret]
    simp only [hitsOf, hisem, Bool.false_eq_true, if_false]
    simp [citationsOf, citationOf, snippetSource, snippetChunkId]
  refine ⟨hcit, ?_, ?_⟩
  · rw [hcit]
    simp [List.enumFrom_length]
  · have h1 := chat_mem_self env mem disk q hq
    rw [hret, hllm] at h1
    simp only [hitsOf, ctxTurns, hisem, Bool.false_eq_true, if_false, ansTurns,
      contextBlock, contextEntry, snippetSource, snippetChunkId, snippetText] at h1
    rw [h1]
    simp

/-- Witness for C7 at a concrete one-snippet retrieval whose snippet has
only a text field, so source and chunk id take their defaults. -/
theorem chat_context_formatting_witness :
    (chat envHits [] [] qBasic).citations =
      [{ id := "1", source := "knowledge_base", chunk_id := "1" }] ∧
    (chat envHits [] [] qBasic).citations.length =
      List.length [({ source := none, chunk_id := none, text := some " t1 " } : Snippet)] ∧
    storeGet (chat envHits [] [] qBasic).mem (resolveSid qBasic.session_id envHits.freshId) =
      some [sysTurn,
        { role := "assistant", content := "CONTEXT:\n[1] knowledge_base#chunk1\nt1" },
        { role := "user", content := "What is the GST rate?" },
        { role := "assistant", content := "the answer" }] :=
  chat_context_formatting envHits [] [] qBasic
    [{ source := none, chunk_id := none, text := some " t1 " }] "the answer"
    (by decide) rfl (by decide) rfl

theorem decodeTurns_map (ts : List Turn) : decodeTurns (ts.map turnToJson) = some ts := by
  induction ts with
  | nil => rfl
  | cons t ts ih =>
    obtain ⟨r, c⟩ := t
    simp [decodeTurns, turnToJson, jsonToTurn, ih]

theorem decodeSessions_map (s : Store) :
    decodeSessions (s.map (fun p => (p.1, Json.arr (p.2.map turnToJson)))) = some s := by
  induction s with
  | nil => rfl
  | cons p rest ih =>
    obtain ⟨k, ts⟩ := p
    simp [decodeSessions, decodeTurns_map, ih]

/-- C9: writing the in-memory mapping out as the JSON session document and
loading it back at startup reproduces the identical mapping of session
ids to ordered role and content records. -/
theorem store_roundtrip (s : Store) : jsonToStore (storeToJson s) = some s := by
  simp only [storeToJson, jsonToStore]
  exact decodeSessions_map s

/-- C10: the empty string as session id is falsy, so the call behaves
exactly as if no session id was supplied: a fresh identifier is resolved
and returned, and the empty string never becomes a key of the store. -/
theorem chat_empty_session_id_fresh (env : Env) (mem disk : Store) (q : ChatQuery)
    (ans : String)
    (hsid : q.session_id = some "") (hq : pyStrip q.question ≠ "")
    (hfresh : env.freshId ≠ "") (hmem : storeGet mem "" = none)
    (hllm : env.llm = LLMOutcome.ok ans) :
    chat env mem disk q = chat env mem disk { q with session_id := none } ∧
    (chat env mem disk q).session_id = some env.freshId ∧
    storeGet (chat env mem disk q).mem "" = none := by
  obtain ⟨qq, qs, qk⟩ := q
  have hqs : qs = some "" := hsid
  subst hqs
  refine ⟨rfl, ?_, ?_⟩
  · obtain ⟨fresh, retr, llm⟩ := env
    have hllm' : llm = LLMOutcome.ok ans := hllm
    subst hllm'
    unfold chat
    rw [if_neg hq]
    rfl
  · have hk : ("" : String) ≠ resolveSid (some "") env.freshId := by
      simp only [resolveSid, if_pos rfl]
      exact fun h => hfresh h.symm
    have h2 := chat_mem_ne env mem disk (ChatQuery.mk qq (some "") qk) "" hk
    rw [h2]
    exact hmem

/-- Witness for C10 at a concrete request carrying the empty session id. -/
theorem chat_empty_session_id_fresh_witness :
    chat envOkNoHits [] [] qEmptySid = chat envOkNoHits [] [] { qEmptySid with session_id := none } ∧
    (chat envOkNoHits [] [] qEmptySid).session_id = some envOkNoHits.freshId ∧
    storeGet (chat envOkNoHits [] [] qEmptySid).mem "" = none :=
  chat_empty_session_id_fresh envOkNoHits [] [] qEmptySid "the answer" rfl (by decide) (by decide) rfl rfl
